import Mathlib

/-!
Verification development for the Citizen Connect ACS ETL pipeline.

The pipeline (update_socrata_dataset.py, sources/acs5.py) fetches tabular
statistical data, normalizes it into a canonical row format, assigns a
deterministic row identifier, validates the table against a declarative
schema, and upserts it into a remote dataset.

Shallow embedding conventions:
- A pandas dataframe is a `List` of typed row structures; a nullable cell
  is an `Option`.
- Floating-point measurements (`value`, `denominator`) are embedded as
  `Rat`; no claim depends on float arithmetic, only on null-ness.
- Python exceptions are embedded as `Except`.
-/

namespace CitizenConnect

/-- A geometry object as delivered by the external source fetch
(autocensus) before serialization. The claims only distinguish a
well-formed point from a malformed geometry, so the embedding does
exactly that. -/
inductive Geometry where
  | point (x y : Int)
  | malformed
deriving DecidableEq

/-- Modelled from the spec: the external geometry serializer
(`autocensus.geography.serialize_to_wkt`, a collaborator outside this
repository) converts a source-provided point geometry object into its
standard text form; a malformed geometry fails to serialize, which the
embedding records as `none` (a null cell in the dataframe). -/
def serialize_to_wkt : Geometry → Option String
  | Geometry.point x y => some ("POINT (" ++ toString x ++ " " ++ toString y ++ ")")
  | Geometry.malformed => none

/-- One raw record from the external ACS5 source fetch, holding the
columns that `transform_dataframe` in sources/acs5.py consumes:
`variable_code`, `value`, `year`, `date`, `name`, `geometry`, and the
geographic identifiers that pass through untouched. Cells may be null. -/
structure RawRow where
  variable_code : Option String
  value : Option Rat
  year : Option Int
  date : Option String
  name : Option String
  geometry : Geometry
  geo_id : Option String
  geo_type : Option String
deriving DecidableEq

/-- One row of the reference table sources/acs5_labels.csv that
`transform_dataframe` left-merges on `variable`: cleaned-up topic,
concept and label per variable code. -/
structure LabelRow where
  «variable» : String
  topic : Option String
  concept : Option String
  label : Option String
deriving DecidableEq

/-- A Canonical Row: the fixed column set adopted by
`transform_dataframe` (the `schema` list in sources/acs5.py), before
`row_id` assignment. Every cell may be null in the dataframe; the
schema validator is what enforces per-column non-nullability. -/
structure Row where
  source : Option String
  topic : Option String
  concept : Option String
  «variable» : Option String
  label : Option String
  value : Option Rat
  denominator_variable : Option String
  denominator_label : Option String
  denominator : Option Rat
  year : Option Int
  year_date : Option String
  geo_id : Option String
  geo_name : Option String
  geo_type : Option String
  location : Option String
deriving DecidableEq

/-- A Canonical Row together with its assigned `row_id` column. -/
structure KeyedRow extends Row where
  row_id : String
deriving DecidableEq

/-- Serialization of a nullable string cell inside `make_row_id` in
update_socrata_dataset.py: a null field becomes the empty string,
a non-null field is used as-is. -/
def optStr : Option String → String
  | some s => s
  | none => ""

/-- Serialization of the nullable integer `year` cell inside
`make_row_id`: a null field becomes the empty string, a non-null field
is rendered by Python `str` (decimal). -/
def optIntStr : Option Int → String
  | some n => toString n
  | none => ""

/-- `make_row_id` from update_socrata_dataset.py: formats the template
`{source}|{variable}|{denominator_variable}|{year}|{geo_id}` over the
row, with each null field replaced by the empty string. -/
def make_row_id (r : Row) : String :=
  optStr r.source ++ "|" ++ optStr r.«variable» ++ "|" ++
    optStr r.denominator_variable ++ "|" ++ optIntStr r.year ++ "|" ++
    optStr r.geo_id

/-- `assign_row_id` from update_socrata_dataset.py: applies
`make_row_id` to every row and stores the result as the `row_id`
column. -/
def assign_row_id (df : List Row) : List KeyedRow :=
  df.map fun r => { r with row_id := make_row_id r }

/-- Checks that every character of the list is an ASCII digit. -/
def allDigits (cs : List Char) : Bool :=
  cs.all Char.isDigit

/-- Decimal value of a list of ASCII digits. -/
def digitsToNat (cs : List Char) : Nat :=
  cs.foldl (fun n c => 10 * n + (c.toNat - 48)) 0

/-- Gregorian leap-year rule as used by Python `datetime`. -/
def isLeapYear (y : Nat) : Bool :=
  y % 4 == 0 && (y % 100 != 0 || y % 400 == 0)

/-- Number of days in a month of a given year, as enforced by the
Python `datetime` constructor. -/
def daysInMonth (y m : Nat) : Nat :=
  if m == 2 then (if isLeapYear y then 29 else 28)
  else if m == 4 || m == 6 || m == 9 || m == 11 then 30
  else 31

/-- Modelled from the spec: `validate_year_date` in
update_socrata_dataset.py parses the value with Python
`datetime.strptime(value, "%Y-%m-%d")` (library code outside this
repository). The embedding follows CPython `_strptime`: exactly four
digits for the year (at least 0001), one or two digits for month and
day, month in 1..12, day within the month's length. -/
def validate_year_date (s : String) : Bool :=
  match s.data.splitOn '-' with
  | [ys, ms, ds] =>
    ys.length == 4 && allDigits ys &&
    (ms.length == 1 || ms.length == 2) && allDigits ms &&
    (ds.length == 1 || ds.length == 2) && allDigits ds &&
    (let y := digitsToNat ys
     let m := digitsToNat ms
     let d := digitsToNat ds
     decide (1 ≤ y) && decide (1 ≤ m) && decide (m ≤ 12) &&
       decide (1 ≤ d) && decide (d ≤ daysInMonth y m))
  | _ => false

/-- Checks that a character list is a decimal numeral, optionally
negative, optionally with a fractional part. -/
def isWktNumber (cs : List Char) : Bool :=
  let body := match cs with
    | '-' :: rest => rest
    | _ => cs
  match body.splitOn '.' with
  | [a] => !a.isEmpty && allDigits a
  | [a, b] => !a.isEmpty && allDigits a && !b.isEmpty && allDigits b
  | _ => false

/-- Modelled from the spec: `validate_location` in
update_socrata_dataset.py parses the value with the external geomet WKT
parser (library code outside this repository) and accepts exactly the
geometries of type Point. The embedding accepts the 2-D WKT point text
form `POINT (x y)`. -/
def validate_location (s : String) : Bool :=
  match s.data with
  | 'P' :: 'O' :: 'I' :: 'N' :: 'T' :: ' ' :: '(' :: rest =>
    (rest.getLast? == some ')') &&
    (match rest.dropLast.splitOn ' ' with
     | [a, b] => isWktNumber a && isWktNumber b
     | _ => false)
  | _ => false

/-- Python string slicing `s[0:4]` (first four code points). -/
def strTake4 (s : String) : String :=
  String.mk (s.data.take 4)

/-- The per-row checks of the pandera `DataFrameSchema` in
`validate_dataframe` (update_socrata_dataset.py): per-column
non-nullability as declared (`topic`, `concept`, `denominator_variable`,
`denominator_label`, `denominator` are nullable, all others are not),
the `year` range check `2000 ≤ year ≤ current year`, the `year_date`
format check, the `location` WKT-point check, and the two
dataframe-wide element-wise checks: `year_date[0:4] == str(year)` and
`row_id == make_row_id(row)`. -/
def rowChecks (currentYear : Int) (k : KeyedRow) : Bool :=
  let r := k.toRow
  r.source.isSome && r.«variable».isSome && r.label.isSome && r.value.isSome &&
  (match r.year with
   | some y => decide (2000 ≤ y) && decide (y ≤ currentYear)
   | none => false) &&
  (match r.year_date with
   | some d => validate_year_date d
   | none => false) &&
  r.geo_id.isSome && r.geo_name.isSome && r.geo_type.isSome &&
  (match r.location with
   | some l => validate_location l
   | none => false) &&
  (match r.year_date, r.year with
   | some d, some y => strTake4 d == toString y
   | _, _ => false) &&
  (k.row_id == make_row_id r)

/-- Boolean no-duplicates check on a list of strings, embedding the
pandera `allow_duplicates=False` constraint on the `row_id` column. -/
def noDup : List String → Bool
  | [] => true
  | x :: xs => !(xs.contains x) && noDup xs

/-- `validate_dataframe` from update_socrata_dataset.py: the table
passes iff the `row_id` column has no duplicates and every row passes
every declared column constraint and cross-field check. `schema.validate`
raises `SchemaError` on the first violated constraint and the function
returns `False`; it returns `True` exactly when no constraint is
violated. `currentYear` stands for `datetime.now().year`. -/
def validate_dataframe (currentYear : Int) (df : List KeyedRow) : Bool :=
  noDup (df.map KeyedRow.row_id) && df.all (rowChecks currentYear)

/-- The row filter applied first by `transform_dataframe` in
sources/acs5.py: `isin` on a null cell and a comparison on a null cell
are both false in pandas, so a row with a null `variable_code` or null
`year` is kept. -/
def definitionFilterKeep (r : RawRow) : Bool :=
  !(((match r.variable_code with
      | some v => ["DP05_0018E", "S0101_C01_028E"].contains v
      | none => false) &&
     (match r.year with
      | some y => decide (y ≤ 2016)
      | none => false))
    ||
    ((match r.variable_code with
      | some v => ["DP05_0017E", "S0101_C01_026E"].contains v
      | none => false) &&
     (match r.year with
      | some y => decide (2017 ≤ y)
      | none => false)))

/-- The column transforms of `transform_dataframe` in sources/acs5.py
applied to one raw row: `source` is the constant "ACS5", `variable`
copies `variable_code`, the three denominator columns are set null,
`year_date` copies `date`, `geo_name` copies `name`, `location` is the
serialized geometry, and `topic`/`concept`/`label` come from the
left-merge with the labels table on `variable` (an unmatched or null
key yields null metadata). The projection onto the canonical `schema`
column list drops every other source column. -/
def toCanonical (labels : List LabelRow) (r : RawRow) : Row :=
  let entry := labels.find? fun l => r.variable_code == some l.«variable»
  { source := some "ACS5"
    topic := entry.bind LabelRow.topic
    concept := entry.bind LabelRow.concept
    «variable» := r.variable_code
    label := entry.bind LabelRow.label
    value := r.value
    denominator_variable := none
    denominator_label := none
    denominator := none
    year := r.year
    year_date := r.date
    geo_id := r.geo_id
    geo_name := r.name
    geo_type := r.geo_type
    location := serialize_to_wkt r.geometry }

/-- `transform_dataframe` from sources/acs5.py: drop the rows caught by
the conflicting-definition filter, apply the column transforms and the
labels merge, project onto the canonical schema, then drop the rows
whose `value` is null. -/
def transform_dataframe (labels : List LabelRow) (df : List RawRow) : List Row :=
  (((df.filter definitionFilterKeep).map (toCanonical labels)).filter
    fun r => r.value.isSome)

/-- Outcome of one source's run inside `main` when no exception
escapes: either its validated table was handed to the publisher, or
validation failed and the source was skipped. -/
inductive SourceOutcome where
  | published (table : List KeyedRow)
  | skippedValidation
deriving DecidableEq

instance {ε α : Type} [DecidableEq ε] [DecidableEq α] : DecidableEq (Except ε α) := fun a b =>
  match a, b with
  | Except.error e, Except.error f =>
    if h : e = f then isTrue (by rw [h]) else isFalse (by intro hc; cases hc; exact h rfl)
  | Except.ok x, Except.ok y =>
    if h : x = y then isTrue (by rw [h]) else isFalse (by intro hc; cases hc; exact h rfl)
  | Except.error _, Except.ok _ => isFalse (by intro hc; cases hc)
  | Except.ok _, Except.error _ => isFalse (by intro hc; cases hc)

/-- One configured source as `main` in update_socrata_dataset.py sees
it: a name, the result of calling its source function (fetch plus
normalization, which may raise — embedded as `Except`), and whether the
remote publish call `update_socrata_dataset` would succeed for its
table. -/
structure SourceSpec where
  name : String
  fetch : Except String (List Row)
  publishOk : Bool
deriving DecidableEq

/-- `main` from update_socrata_dataset.py over a list of configured
sources: for each source call its source function, assign `row_id`,
validate; on validation failure log and `continue`; otherwise publish.
The only `try`/`except` in the pipeline is inside `validate_dataframe`,
so an exception from the source function or from the publish call
propagates out of `main` and aborts the process, embedded as
`Except.error`. -/
def runPipeline (currentYear : Int) : List SourceSpec → Except String (List (String × SourceOutcome))
  | [] => Except.ok []
  | s :: rest =>
    match s.fetch with
    | Except.error e => Except.error e
    | Except.ok df =>
      let keyed := assign_row_id df
      if validate_dataframe currentYear keyed then
        if s.publishOk then
          match runPipeline currentYear rest with
          | Except.error e => Except.error e
          | Except.ok out => Except.ok ((s.name, SourceOutcome.published keyed) :: out)
        else
          Except.error ("Publish failed for source " ++ s.name)
      else
        match runPipeline currentYear rest with
        | Except.error e => Except.error e
        | Except.ok out => Except.ok ((s.name, SourceOutcome.skippedValidation) :: out)

/-! ### Concrete rows and tables used by the witnesses and counterexamples -/

/-- A well-formed Canonical Row as produced by the ACS5 normalizer. -/
def goodRow : Row :=
  { source := some "ACS5", topic := some "Demographics", concept := some "Sex",
    «variable» := some "DP05_0002E", label := some "Total male population",
    value := some (42 : Rat), denominator_variable := none,
    denominator_label := none, denominator := none, year := some 2018,
    year_date := some "2018-01-01", geo_id := some "0500000US01001",
    geo_name := some "Autauga County, Alabama", geo_type := some "county",
    location := some "POINT (-86.64 32.53)" }

/-- `goodRow` with its correctly assigned `row_id`. -/
def goodKeyed : KeyedRow := { goodRow with row_id := make_row_id goodRow }

/-- `goodRow` with a stale `row_id` that does not match its fields. -/
def staleKeyed : KeyedRow := { goodRow with row_id := "ACS5|DP05_0002E||2017|0500000US01001" }

/-- A row agreeing with `goodRow` on all five identity fields but
differing in `value`, `label` and `year_date`. -/
def collidingRow : Row :=
  { goodRow with
      value := some (43 : Rat)
      label := some "Male population"
      year_date := some "2018-06-01" }

/-- A Canonical Row whose `year` (1999) is outside the validator's
declared range. -/
def badYearRow : Row := { goodRow with year := some 1999, year_date := some "1999-01-01" }

/-- A row with `year = 2018` but `year_date = "2019-01-01"`, violating
the cross-field year alignment. -/
def misalignedRow : Row := { goodRow with year_date := some "2019-01-01" }

/-- `misalignedRow` with its assigned `row_id`. -/
def misalignedKeyed : KeyedRow := { misalignedRow with row_id := make_row_id misalignedRow }

/-- A keyed row whose `location` cell is null. -/
def noLocationKeyed : KeyedRow :=
  { goodRow with location := none, row_id := make_row_id { goodRow with location := none } }

/-- A raw ACS5 record carrying a superseded variable code at the
boundary year 2017. -/
def rawOld2017 : RawRow :=
  { variable_code := some "DP05_0017E", value := some (38 : Rat), year := some 2017,
    date := some "2017-01-01", name := some "Autauga County, Alabama",
    geometry := Geometry.point 1 2, geo_id := some "0500000US01001",
    geo_type := some "county" }

/-- A raw ACS5 record with a well-formed point geometry. -/
def rawGood : RawRow :=
  { variable_code := some "DP05_0002E", value := some (42 : Rat), year := some 2018,
    date := some "2018-01-01", name := some "Autauga County, Alabama",
    geometry := Geometry.point 1 2, geo_id := some "0500000US01001",
    geo_type := some "county" }

/-- A raw ACS5 record whose geometry is malformed. -/
def rawMalformed : RawRow := { rawGood with geometry := Geometry.malformed }

/-- A configured source whose table fails validation (out-of-range year). -/
def sBadValidation : SourceSpec :=
  { name := "ACS5", fetch := Except.ok [badYearRow], publishOk := true }

/-- A configured source whose table validates and publishes. -/
def sGood : SourceSpec :=
  { name := "OTHER", fetch := Except.ok [goodRow], publishOk := true }

/-- A configured source whose fetch raises. -/
def sFetchFail : SourceSpec :=
  { name := "ACS5", fetch := Except.error "ACS5 fetch failed", publishOk := true }

/-- The keyed row obtained by normalizing `rawGood` (with an empty
labels table) and assigning its `row_id`. -/
def keyedFromRaw : KeyedRow :=
  { toCanonical [] rawGood with row_id := make_row_id (toCanonical [] rawGood) }

/-! ### Helper lemmas -/

theorem validate_eq_true_iff (cy : Int) (df : List KeyedRow) :
    validate_dataframe cy df = true ↔
      (noDup (df.map KeyedRow.row_id) = true ∧ ∀ k ∈ df, rowChecks cy k = true) := by
  simp [validate_dataframe, List.all_eq_true]

theorem noDup_iff (l : List String) : noDup l = true ↔ l.Nodup := by
  induction l with
  | nil => simp [noDup]
  | cons x xs ih => simp [noDup, List.nodup_cons, ih, List.contains, List.elem_iff]

theorem mem_assign_row_id {df : List Row} {k : KeyedRow} (h : k ∈ assign_row_id df) :
    k.toRow ∈ df ∧ k.row_id = make_row_id k.toRow := by
  simp only [assign_row_id, List.mem_map] at h
  obtain ⟨r, hr, rfl⟩ := h
  exact ⟨hr, rfl⟩

theorem rowChecks_row_id {cy : Int} {k : KeyedRow} (h : rowChecks cy k = true) :
    k.row_id = make_row_id k.toRow := by
  simp only [rowChecks, Bool.and_eq_true, beq_iff_eq] at h
  exact h.2

theorem rowChecks_year_date {cy : Int} {k : KeyedRow} (h : rowChecks cy k = true) :
    ∃ d y, k.toRow.year_date = some d ∧ k.toRow.year = some y ∧ strTake4 d = toString y := by
  simp only [rowChecks, Bool.and_eq_true] at h
  have hw := h.1.2
  rcases hd : k.toRow.year_date with _ | d
  · rw [hd] at hw; simp at hw
  · rcases hy : k.toRow.year with _ | y
    · rw [hd, hy] at hw; simp at hw
    · rw [hd, hy] at hw
      simp only [beq_iff_eq] at hw
      exact ⟨d, y, rfl, rfl, by simpa using hw⟩

theorem validate_false_of_rowChecks {cy : Int} {df : List KeyedRow} {k : KeyedRow}
    (hk : k ∈ df) (hc : rowChecks cy k = false) : validate_dataframe cy df = false := by
  cases hv : validate_dataframe cy df with
  | false => rfl
  | true =>
    have h := ((validate_eq_true_iff cy df).mp hv).2 k hk
    rw [h] at hc
    exact Bool.noConfusion hc

theorem rowChecks_false_of_location_none {cy : Int} {k : KeyedRow}
    (h : k.toRow.location = none) : rowChecks cy k = false := by
  simp [rowChecks, h]

theorem mem_transform {labels : List LabelRow} {df : List RawRow} {r : Row}
    (h : r ∈ transform_dataframe labels df) :
    ∃ raw ∈ df, definitionFilterKeep raw = true ∧ r = toCanonical labels raw ∧
      r.value.isSome = true := by
  simp only [transform_dataframe, List.mem_filter, List.mem_map] at h
  obtain ⟨⟨raw, ⟨hmem, hkeep⟩, rfl⟩, hval⟩ := h
  exact ⟨raw, hmem, hkeep, rfl, hval⟩

/-! ### Claims -/

/-- C1: For every Canonical Row in a table, recomputing the identity by
joining the string forms of `source`, `variable`, `denominator_variable`,
`year`, `geo_id`, in that order, with separator "|" and nulls as the
empty string (which is exactly `make_row_id`) reproduces the stored
`row_id`: identity assignment stores exactly this value, every row of a
validated table satisfies the equality, and the validator fails any
table containing a row that violates it. -/
theorem C1_row_id_recomputation :
    (∀ (df : List Row) (k : KeyedRow), k ∈ assign_row_id df →
      k.row_id = make_row_id k.toRow) ∧
    (∀ (cy : Int) (df : List KeyedRow), validate_dataframe cy df = true →
      ∀ k ∈ df, k.row_id = make_row_id k.toRow) ∧
    (∀ (cy : Int) (df : List KeyedRow),
      (∃ k ∈ df, k.row_id ≠ make_row_id k.toRow) →
      validate_dataframe cy df = false) := by
  have hmain : ∀ (cy : Int) (df : List KeyedRow), validate_dataframe cy df = true →
      ∀ k ∈ df, k.row_id = make_row_id k.toRow := by
    intro cy df hv k hk
    exact rowChecks_row_id (((validate_eq_true_iff cy df).mp hv).2 k hk)
  refine ⟨?_, hmain, ?_⟩
  · intro df k hk
    exact (mem_assign_row_id hk).2
  · intro cy df ⟨k, hk, hne⟩
    cases hv : validate_dataframe cy df with
    | false => rfl
    | true => exact absurd (hmain cy df hv k hk) hne

theorem C1_row_id_recomputation_witness :
    goodKeyed.row_id = make_row_id goodKeyed.toRow ∧
    validate_dataframe 2025 [staleKeyed] = false :=
  ⟨C1_row_id_recomputation.1 [goodRow] goodKeyed (by decide),
   C1_row_id_recomputation.2.2 2025 [staleKeyed] ⟨staleKeyed, by decide, by decide⟩⟩

/-- C2: the identity function does not depend on `value`, `label` or
`year_date`: two rows agreeing on `source`, `variable`,
`denominator_variable`, `year` and `geo_id` get equal `row_id` strings,
whatever their other fields hold. -/
theorem C2_row_id_collision (r1 r2 : Row)
    (hs : r1.source = r2.source) (hv : r1.«variable» = r2.«variable»)
    (hd : r1.denominator_variable = r2.denominator_variable)
    (hy : r1.year = r2.year) (hg : r1.geo_id = r2.geo_id) :
    make_row_id r1 = make_row_id r2 := by
  simp [make_row_id, hs, hv, hd, hy, hg]

theorem C2_row_id_collision_witness :
    goodRow.value ≠ collidingRow.value ∧ goodRow.label ≠ collidingRow.label ∧
    goodRow.year_date ≠ collidingRow.year_date ∧
    make_row_id goodRow = make_row_id collidingRow :=
  ⟨by decide, by decide, by decide,
   C2_row_id_collision goodRow collidingRow rfl rfl rfl rfl rfl⟩

/-- C3: the conflicting-definition filter with boundary year 2017 keeps
a row iff it is not a superseded (old) code `DP05_0017E`/`S0101_C01_026E`
with year ≥ 2017 and not a successor (new) code
`DP05_0018E`/`S0101_C01_028E` with year < 2017; so exactly the rows the
claim names are removed, boundary years 2017 and 2016 included, and no
other row is removed on account of this rule. -/
theorem C3_conflicting_definition_filter (df : List RawRow) (r : RawRow)
    (v : String) (y : Int) (hv : r.variable_code = some v) (hy : r.year = some y) :
    r ∈ df.filter definitionFilterKeep ↔
      (r ∈ df ∧ ¬(((v = "DP05_0017E" ∨ v = "S0101_C01_026E") ∧ 2017 ≤ y) ∨
                  ((v = "DP05_0018E" ∨ v = "S0101_C01_028E") ∧ y < 2017))) := by
  rw [List.mem_filter]
  have hk : definitionFilterKeep r = true ↔
      ¬(((v = "DP05_0017E" ∨ v = "S0101_C01_026E") ∧ 2017 ≤ y) ∨
        ((v = "DP05_0018E" ∨ v = "S0101_C01_028E") ∧ y < 2017)) := by
    have hyy : ((y : Int) < 2017) ↔ (y ≤ 2016) := by omega
    simp only [definitionFilterKeep, hv, hy, hyy]
    simp [List.contains, List.elem_iff, decide_eq_true_eq]
    tauto
  rw [hk]

theorem C3_conflicting_definition_filter_witness :
    ¬ (rawOld2017 ∈ List.filter definitionFilterKeep [rawOld2017]) :=
  fun h =>
    ((C3_conflicting_definition_filter [rawOld2017] rawOld2017 "DP05_0017E" 2017
        rfl rfl).mp h).2 (Or.inl ⟨Or.inl rfl, by decide⟩)

/-- C4: every row of the normalizer's output has a non-null `value`:
a row whose value is null after the transforms is dropped before the
output, for any input table and labels table. -/
theorem C4_no_null_value_in_output (labels : List LabelRow) (df : List RawRow)
    (r : Row) (h : r ∈ transform_dataframe labels df) : r.value.isSome = true := by
  have hm := List.mem_filter.mp h
  simpa using hm.2

theorem C4_no_null_value_in_output_witness :
    (toCanonical [] rawGood).value.isSome = true :=
  C4_no_null_value_in_output [] [rawGood] (toCanonical [] rawGood) (by decide)

/-- C5: every row of a validated table has `year_date` whose first four
characters equal the string form of `year`; a table containing a row
with `year = 2018` and `year_date = "2019-01-01"` is rejected. -/
theorem C5_year_date_alignment :
    (∀ (cy : Int) (df : List KeyedRow), validate_dataframe cy df = true →
      ∀ k ∈ df, ∃ d y, k.toRow.year_date = some d ∧ k.toRow.year = some y ∧
        strTake4 d = toString y) ∧
    (∀ (cy : Int) (df : List KeyedRow),
      (∃ k ∈ df, k.toRow.year = some 2018 ∧ k.toRow.year_date = some "2019-01-01") →
      validate_dataframe cy df = false) := by
  constructor
  · intro cy df hv k hk
    exact rowChecks_year_date (((validate_eq_true_iff cy df).mp hv).2 k hk)
  · intro cy df ⟨k, hk, hy, hd⟩
    apply validate_false_of_rowChecks hk
    cases hc : rowChecks cy k with
    | false => rfl
    | true =>
      obtain ⟨d, y, hd2, hy2, heq⟩ := rowChecks_year_date hc
      rw [hd] at hd2
      rw [hy] at hy2
      obtain rfl := Option.some.inj hd2.symm
      obtain rfl := Option.some.inj hy2.symm
      exact absurd heq (by decide)

theorem C5_year_date_alignment_witness :
    (∃ d y, goodKeyed.toRow.year_date = some d ∧ goodKeyed.toRow.year = some y ∧
      strTake4 d = toString y) ∧
    validate_dataframe 2025 [misalignedKeyed] = false :=
  ⟨C5_year_date_alignment.1 2025 [goodKeyed] (by decide) goodKeyed (by decide),
   C5_year_date_alignment.2 2025 [misalignedKeyed]
     ⟨misalignedKeyed, by decide, by decide, by decide⟩⟩

/-- C6: in every table accepted by the validator the `row_id` values
are pairwise distinct, and a table in which two rows share a `row_id`
fails validation. -/
theorem C6_row_id_uniqueness (cy : Int) (df : List KeyedRow) :
    (validate_dataframe cy df = true → (df.map KeyedRow.row_id).Nodup) ∧
    (¬ (df.map KeyedRow.row_id).Nodup → validate_dataframe cy df = false) := by
  constructor
  · intro hv
    exact (noDup_iff _).mp ((validate_eq_true_iff cy df).mp hv).1
  · intro hnd
    cases hv : validate_dataframe cy df with
    | false => rfl
    | true => exact absurd ((noDup_iff _).mp ((validate_eq_true_iff cy df).mp hv).1) hnd

theorem C6_row_id_uniqueness_witness :
    ([goodKeyed].map KeyedRow.row_id).Nodup ∧
    validate_dataframe 2025 [goodKeyed, goodKeyed] = false :=
  ⟨(C6_row_id_uniqueness 2025 [goodKeyed]).1 (by decide),
   (C6_row_id_uniqueness 2025 [goodKeyed, goodKeyed]).2 (by decide)⟩

/-- C7: validation is all-or-nothing per table: when any row of a
source's table fails any declared per-row constraint or cross-field
check, the validator fails the whole table, the table is never handed
to the publisher (the source's outcome is `skippedValidation`, and the
publish call is not consulted), and the orchestrator proceeds with the
remaining sources exactly as before. -/
theorem C7_validation_all_or_nothing (cy : Int) (s : SourceSpec)
    (rest : List SourceSpec) (df : List Row) (hf : s.fetch = Except.ok df)
    (hbad : ∃ k ∈ assign_row_id df, rowChecks cy k = false) :
    validate_dataframe cy (assign_row_id df) = false ∧
    runPipeline cy (s :: rest) =
      Except.map (fun out => (s.name, SourceOutcome.skippedValidation) :: out)
        (runPipeline cy rest) := by
  obtain ⟨k, hk, hc⟩ := hbad
  have hv : validate_dataframe cy (assign_row_id df) = false :=
    validate_false_of_rowChecks hk hc
  refine ⟨hv, ?_⟩
  simp only [runPipeline, hf, hv]
  cases runPipeline cy rest with
  | error e => rfl
  | ok out => rfl

theorem C7_validation_all_or_nothing_witness :
    validate_dataframe 2025 (assign_row_id [badYearRow]) = false ∧
    runPipeline 2025 [sBadValidation] =
      Except.map (fun out => ("ACS5", SourceOutcome.skippedValidation) :: out)
        (runPipeline 2025 []) :=
  C7_validation_all_or_nothing 2025 sBadValidation [] [badYearRow] rfl
    ⟨{ badYearRow with row_id := make_row_id badYearRow }, by decide, by decide⟩

/-- C8 (counterexample): with a fetch failure in the first source, the
pipeline run ends in an error (a nonzero process exit) and the second
source is never processed, contradicting the claim that the process
exits zero regardless of individual source failures. -/
theorem C8_counterexample :
    runPipeline 2025 [sFetchFail, sGood] = Except.error "ACS5 fetch failed" := rfl

/-- C8 (amended): a validation failure alone never makes the process
fail — when every source's fetch succeeds and every publish succeeds,
the run ends successfully (exit zero) with one outcome per source, even
if some tables fail validation; but a fetch, normalization or publish
exception is not caught by `main` and aborts the run. -/
theorem C8_exit_zero_without_fetch_publish_failures (cy : Int)
    (sources : List SourceSpec)
    (h : ∀ s ∈ sources, (∃ df, s.fetch = Except.ok df) ∧ s.publishOk = true) :
    ∃ out, runPipeline cy sources = Except.ok out ∧ out.length = sources.length := by
  induction sources with
  | nil => exact ⟨[], rfl, rfl⟩
  | cons s rest ih =>
    obtain ⟨⟨df, hdf⟩, hpub⟩ := h s (List.mem_cons_self s rest)
    obtain ⟨out, hout, hlen⟩ := ih fun t ht => h t (List.mem_cons_of_mem s ht)
    by_cases hv : validate_dataframe cy (assign_row_id df) = true
    · refine ⟨(s.name, SourceOutcome.published (assign_row_id df)) :: out, ?_, by simp [hlen]⟩
      simp [runPipeline, hdf, hv, hpub, hout]
    · have hv2 : validate_dataframe cy (assign_row_id df) = false := by
        cases hvv : validate_dataframe cy (assign_row_id df) with
        | false => rfl
        | true => exact absurd hvv hv
      refine ⟨(s.name, SourceOutcome.skippedValidation) :: out, ?_, by simp [hlen]⟩
      simp [runPipeline, hdf, hv2, hout]

theorem C8_exit_zero_without_fetch_publish_failures_witness :
    ∃ out, runPipeline 2025 [sBadValidation, sGood] = Except.ok out ∧
      out.length = [sBadValidation, sGood].length :=
  C8_exit_zero_without_fetch_publish_failures 2025 [sBadValidation, sGood] (by
    intro s hs
    rcases List.mem_cons.mp hs with rfl | hs2
    · exact ⟨⟨[badYearRow], rfl⟩, rfl⟩
    · rcases List.mem_cons.mp hs2 with rfl | h0
      · exact ⟨⟨[goodRow], rfl⟩, rfl⟩
      · exact absurd h0 (List.not_mem_nil s))

/-- C9 (counterexample): a raw row whose geometry is malformed is not
dropped by the normalizer — the transform of a one-row table with
malformed geometry still has one row, and that row's `location` is
null, contradicting the claim that the row is dropped with a warning. -/
theorem C9_counterexample :
    (transform_dataframe [] [rawMalformed]).length = 1 ∧
    ∀ r ∈ transform_dataframe [] [rawMalformed], r.location = none := by decide

/-- C9 (amended): a row with malformed geometry is retained by the
normalizer (provided its value is non-null and the definition filter
keeps it), with a null `location`; any table containing such a row then
fails schema validation, so malformed geometry is fatal for the whole
table at validation rather than a per-row drop. -/
theorem C9_malformed_geometry_not_dropped (labels : List LabelRow)
    (df : List RawRow) (raw : RawRow) (hmem : raw ∈ df)
    (hgeom : raw.geometry = Geometry.malformed)
    (hval : raw.value.isSome = true)
    (hkeep : definitionFilterKeep raw = true) :
    toCanonical labels raw ∈ transform_dataframe labels df ∧
    (toCanonical labels raw).location = none ∧
    (∀ (cy : Int) (rows : List KeyedRow),
      (∃ k ∈ rows, k.toRow.location = none) → validate_dataframe cy rows = false) := by
  refine ⟨?_, ?_, ?_⟩
  · simp only [transform_dataframe, List.mem_filter, List.mem_map]
    refine ⟨⟨raw, ⟨hmem, hkeep⟩, rfl⟩, ?_⟩
    simpa [toCanonical] using hval
  · simp [toCanonical, hgeom, serialize_to_wkt]
  · intro cy rows ⟨k, hk, hl⟩
    exact validate_false_of_rowChecks hk (rowChecks_false_of_location_none hl)

theorem C9_malformed_geometry_not_dropped_witness :
    toCanonical [] rawMalformed ∈ transform_dataframe [] [rawMalformed] ∧
    (toCanonical [] rawMalformed).location = none ∧
    validate_dataframe 2025 [noLocationKeyed] = false :=
  have h := C9_malformed_geometry_not_dropped [] [rawMalformed] rawMalformed
    (by decide) rfl rfl (by decide)
  ⟨h.1, h.2.1, h.2.2 2025 [noLocationKeyed] ⟨noLocationKeyed, by decide, rfl⟩⟩

/-- Joining with "|" around an empty middle component yields the double
separator "||". -/
theorem rowIdShape (v y g : String) :
    "ACS5" ++ "|" ++ v ++ "|" ++ "" ++ "|" ++ y ++ "|" ++ g =
      "ACS5|" ++ v ++ "||" ++ y ++ "|" ++ g := by
  apply String.ext
  have h1 : ("ACS5|" : String).data = ("ACS5" : String).data ++ ("|" : String).data := by decide
  have h2 : ("||" : String).data = ("|" : String).data ++ ("|" : String).data := by decide
  have h3 : ("" : String).data = ([] : List Char) := by decide
  simp [String.data_append, h1, h2, h3, List.append_assoc]

/-- C10: every row produced by the ACS5 normalizer (after `row_id`
assignment) has null `denominator_variable`, `denominator_label` and
`denominator`, and its assigned `row_id` has the exact shape
`ACS5|<variable>||<year>|<geo_id>` with an empty third component. -/
theorem C10_acs5_denominator_null_and_row_id_shape (labels : List LabelRow)
    (df : List RawRow) (k : KeyedRow)
    (h : k ∈ assign_row_id (transform_dataframe labels df)) :
    k.toRow.denominator_variable = none ∧ k.toRow.denominator_label = none ∧
    k.toRow.denominator = none ∧
    k.row_id = "ACS5|" ++ optStr k.toRow.«variable» ++ "||" ++
      optIntStr k.toRow.year ++ "|" ++ optStr k.toRow.geo_id := by
  obtain ⟨hmem, hid⟩ := mem_assign_row_id h
  obtain ⟨raw, hraw, hkeep, heq, hval⟩ := mem_transform hmem
  have hdv : k.toRow.denominator_variable = none := by rw [heq]; rfl
  have hdl : k.toRow.denominator_label = none := by rw [heq]; rfl
  have hd : k.toRow.denominator = none := by rw [heq]; rfl
  have hsrc : k.toRow.source = some "ACS5" := by rw [heq]; rfl
  refine ⟨hdv, hdl, hd, ?_⟩
  rw [hid]
  simp only [make_row_id, hsrc, hdv, optStr]
  exact rowIdShape _ _ _

theorem C10_acs5_denominator_null_and_row_id_shape_witness :
    keyedFromRaw.toRow.denominator_variable = none ∧
    keyedFromRaw.toRow.denominator_label = none ∧
    keyedFromRaw.toRow.denominator = none ∧
    keyedFromRaw.row_id = "ACS5|" ++ optStr keyedFromRaw.toRow.«variable» ++ "||" ++
      optIntStr keyedFromRaw.toRow.year ++ "|" ++ optStr keyedFromRaw.toRow.geo_id :=
  C10_acs5_denominator_null_and_row_id_shape [] [rawGood] keyedFromRaw (by decide)

end CitizenConnect
